import Mathlib

/-!
Shallow embedding of `sphinxcontrib/ditaa.py` (the sphinx-ditaa extension).

Bytes are modelled as `List Nat` (each entry < 256), machine words as `Nat`
reduced modulo `2 ^ 32` where overflow matters.  Stateful code is modelled by
explicit state passing on a `Builder` record plus an explicit `World` record
describing the responses of the operating system and of the external `ditaa`
subprocess; side effects are recorded as an explicit `Event` trace.
-/

/-- Truncation to a 32-bit word, `n % 2^32`. -/
def w32 (n : Nat) : Nat := n % 4294967296

/-- Left rotation of 32-bit `x` by `k` bits. -/
def rotl (k x : Nat) : Nat := w32 ((x <<< k) ||| (x >>> (32 - k)))

/-- The SHA-1 round function `f` for round `i` (source: `hashlib.sha1`). -/
def sha1F (i b c d : Nat) : Nat :=
  if i < 20 then (b &&& c) ||| ((4294967295 ^^^ b) &&& d)
  else if i < 40 then b ^^^ c ^^^ d
  else if i < 60 then (b &&& c) ||| (b &&& d) ||| (c &&& d)
  else b ^^^ c ^^^ d

/-- The SHA-1 round constant for round `i`. -/
def sha1K (i : Nat) : Nat :=
  if i < 20 then 0x5A827999
  else if i < 40 then 0x6ED9EBA1
  else if i < 60 then 0x8F1BBCDC
  else 0xCA62C1D6

/-- Group a byte list into big-endian 32-bit words (4 bytes per word). -/
def bytesToWords : List Nat → List Nat
  | b0 :: b1 :: b2 :: b3 :: rest =>
      (((b0 * 256 + b1) * 256 + b2) * 256 + b3) :: bytesToWords rest
  | _ => []

/-- Extend the 16 chunk words: repeat `n` more times
`w[i] = rotl 1 (w[i-3] xor w[i-8] xor w[i-14] xor w[i-16])`. -/
def sha1Extend (acc : List Nat) : Nat → List Nat
  | 0 => acc
  | n + 1 =>
      let i := acc.length
      let nw := rotl 1 (acc.getD (i - 3) 0 ^^^ acc.getD (i - 8) 0 ^^^
                        acc.getD (i - 14) 0 ^^^ acc.getD (i - 16) 0)
      sha1Extend (acc ++ [nw]) n

/-- The 80 SHA-1 compression rounds over the extended word schedule. -/
def sha1Rounds : Nat → List Nat → Nat × Nat × Nat × Nat × Nat →
    Nat × Nat × Nat × Nat × Nat
  | _, [], st => st
  | i, wi :: ws, (a, b, c, d, e) =>
      let temp := w32 (rotl 5 a + sha1F i b c d + e + sha1K i + wi)
      sha1Rounds (i + 1) ws (temp, a, rotl 30 b, c, d)

/-- Process one 64-byte chunk, updating the five hash words. -/
def sha1Chunk (h : Nat × Nat × Nat × Nat × Nat) (chunk : List Nat) :
    Nat × Nat × Nat × Nat × Nat :=
  let ws := sha1Extend (bytesToWords chunk) 64
  let (h0, h1, h2, h3, h4) := h
  let (a, b, c, d, e) := sha1Rounds 0 ws (h0, h1, h2, h3, h4)
  (w32 (h0 + a), w32 (h1 + b), w32 (h2 + c), w32 (h3 + d), w32 (h4 + e))

/-- Split a list into consecutive 64-element chunks (`fuel`-bounded, with
`fuel ≥ l.length` every element is covered). -/
def chunks64Go : Nat → List Nat → List (List Nat)
  | 0, _ => []
  | _, [] => []
  | fuel + 1, l => l.take 64 :: chunks64Go fuel (l.drop 64)

/-- Split a list into consecutive 64-element chunks. -/
def chunks64 (l : List Nat) : List (List Nat) := chunks64Go l.length l

/-- Big-endian 64-bit byte encoding of `n`. -/
def be64 (n : Nat) : List Nat :=
  [n / 2 ^ 56 % 256, n / 2 ^ 48 % 256, n / 2 ^ 40 % 256, n / 2 ^ 32 % 256,
   n / 2 ^ 24 % 256, n / 2 ^ 16 % 256, n / 2 ^ 8 % 256, n % 256]

/-- SHA-1 padding: `0x80`, zeros to 56 mod 64, then the bit length. -/
def sha1Pad (msg : List Nat) : List Nat :=
  let z := (119 - msg.length % 64) % 64
  msg ++ [0x80] ++ List.replicate z 0 ++ be64 (msg.length * 8)

/-- The five final SHA-1 hash words of a byte message. -/
def sha1Words (msg : List Nat) : Nat × Nat × Nat × Nat × Nat :=
  (chunks64 (sha1Pad msg)).foldl sha1Chunk
    (0x67452301, 0xEFCDAB89, 0x98BADCFE, 0x10325476, 0xC3D2E1F0)

/-- A lowercase hexadecimal digit. -/
def hexDigit (n : Nat) : Char :=
  if n < 10 then Char.ofNat (48 + n) else Char.ofNat (87 + n)

/-- Eight lowercase hex digits of a 32-bit word, most significant first. -/
def word8Hex (n : Nat) : List Char :=
  [hexDigit (n / 2 ^ 28 % 16), hexDigit (n / 2 ^ 24 % 16),
   hexDigit (n / 2 ^ 20 % 16), hexDigit (n / 2 ^ 16 % 16),
   hexDigit (n / 2 ^ 12 % 16), hexDigit (n / 2 ^ 8 % 16),
   hexDigit (n / 2 ^ 4 % 16), hexDigit (n % 16)]

/-- Models `sha(data).hexdigest()`: the 40-character lowercase hex SHA-1 digest. -/
def sha1Hexdigest (msg : List Nat) : String :=
  let (h0, h1, h2, h3, h4) := sha1Words msg
  String.mk (word8Hex h0 ++ word8Hex h1 ++ word8Hex h2 ++ word8Hex h3 ++
             word8Hex h4)

/-- UTF-8 encoding of one Unicode code point. -/
def utf8Char (n : Nat) : List Nat :=
  if n < 0x80 then [n]
  else if n < 0x800 then [0xC0 + n / 64, 0x80 + n % 64]
  else if n < 0x10000 then
    [0xE0 + n / 4096, 0x80 + n / 64 % 64, 0x80 + n % 64]
  else
    [0xF0 + n / 262144, 0x80 + n / 4096 % 64, 0x80 + n / 64 % 64,
     0x80 + n % 64]

/-- Models `s.encode('utf-8')` as a byte list. -/
def utf8Bytes (s : String) : List Nat :=
  s.data.foldr (fun c acc => utf8Char c.toNat ++ acc) []

/-- Python escape of one character inside a `repr` string quoted by `q`
(CPython `repr` for ordinary strings). -/
def pyEscChar (q c : Char) : List Char :=
  if c = Char.ofNat 92 then [Char.ofNat 92, Char.ofNat 92]
  else if c = q then [Char.ofNat 92, q]
  else if c = Char.ofNat 10 then [Char.ofNat 92, Char.ofNat 110]
  else if c = Char.ofNat 13 then [Char.ofNat 92, Char.ofNat 114]
  else if c = Char.ofNat 9 then [Char.ofNat 92, Char.ofNat 116]
  else if c.toNat < 32 || c.toNat ≥ 127 then
    [Char.ofNat 92, Char.ofNat 120, hexDigit (c.toNat / 16 % 16),
     hexDigit (c.toNat % 16)]
  else [c]

/-- CPython `repr` of a string: single quotes, or double quotes when the
string holds a single quote but no double quote. -/
def pyReprStr (s : String) : String :=
  let q := if s.contains (Char.ofNat 39) && !s.contains (Char.ofNat 34)
           then Char.ofNat 34 else Char.ofNat 39
  String.mk (q :: s.data.foldr (fun c acc => pyEscChar q c ++ acc) [q])

/-- Python `str` of a list of strings, e.g. `str(['a', 'b'])`. -/
def pyStrList (l : List String) : String :=
  "[" ++ String.intercalate ", " (l.map pyReprStr) ++ "]"

/-- Models `os.path.join` for POSIX paths, two arguments. -/
def osPathJoin (a b : String) : String :=
  if b.startsWith "/" then b
  else if a = "" then b
  else if a.endsWith "/" then a ++ b
  else a ++ "/" ++ b

/-- Models `os.path.dirname`: the path up to (excluding) the last slash
(for paths that have a directory part). -/
def dirname (p : String) : String :=
  let parts := p.splitOn "/"
  String.intercalate "/" parts.dropLast

/-- The errno `ENOENT` (no such file or directory), as imported via
`sphinx.util.osutil`. -/
def ENOENT : Nat := 2

/-- The errno `EPIPE` (broken pipe). -/
def EPIPE : Nat := 32

/-- The errno `EINVAL` (invalid argument). -/
def EINVAL : Nat := 22

/-- The `app.add_config_value` surface consumed by `render_ditaa`:
`ditaa` (tool path, default `'ditaa'`) and `ditaa_args` (default `[]`). -/
structure Config where
  ditaa : String
  ditaa_args : List String
  deriving Repr, DecidableEq

/-- The builder state `render_ditaa` reads and writes: configuration, the
image paths, the sticky `_ditaa_warned` attribute (modelled as a `Bool`,
`false` standing for the attribute being absent) and the warnings recorded
through `self.builder.warn`. -/
structure Builder where
  config : Config
  imgpath : String
  outdir : String
  ditaa_warned : Bool
  warnings : List String
  deriving Repr, DecidableEq

/-- Result of the `Popen(ditaa_cmd, ...)` call: a process handle, or an
`OSError` carrying an errno. -/
inductive PopenResult where
  | ok
  | osError (errno : Nat)
  deriving Repr, DecidableEq

/-- Result of `p.communicate(code)`: captured `(stdout, stderr)` byte
streams, or an `OSError` / `IOError` carrying an errno (the two exception
classes are distinct, as in the Python 2 lineage of this source, which
catches them in separate clauses). -/
inductive CommResult where
  | ok (stdout stderr : List Nat)
  | osError (errno : Nat)
  | ioError (errno : Nat)
  deriving Repr, DecidableEq

/-- The environment a single `render_ditaa` call interacts with:
`os.path.isfile`, the `NamedTemporaryFile` name, the outcome of `Popen`
and of `communicate`, the streams read directly after a recovered
communication failure, the exit code, and `bytes.decode(sys_encoding)`. -/
structure World where
  fileExists : String → Bool
  tmpName : String
  popen : PopenResult
  comm : CommResult
  directStdout : List Nat
  directStderr : List Nat
  returncode : Int
  decode : List Nat → String

/-- Observable side effects of one `render_ditaa` call, in order. -/
inductive Event where
  | ensuredirEv (path : String)
  | createTemp (name : String)
  | writeTemp (name : String) (data : List Nat)
  | launch (cmd : List String)
  | unlink (name : String)
  deriving Repr, DecidableEq

/-- How a `render_ditaa` call terminates: a returned pair (each component
`none` modelling Python `None`), a raised `DitaaError`, or a propagated
`OSError` / `IOError`. -/
inductive ROutcome where
  | ret (relfn outfn : Option String)
  | ditaaError (msg : String)
  | osErrorRaised (errno : Nat)
  | ioErrorRaised (errno : Nat)
  deriving Repr, DecidableEq

/-- The `hashkey` of `render_ditaa`:
`code.encode('utf-8') + str(options).encode('utf-8') +
str(config.ditaa).encode('utf-8') + str(config.ditaa_args).encode('utf-8')`
(`str` of a string is the string itself; `str` of a list of strings is its
Python serialization). -/
def hashkey (code : String) (options : List String) (ditaaPath : String)
    (ditaaArgs : List String) : List Nat :=
  utf8Bytes code ++ utf8Bytes (pyStrList options) ++ utf8Bytes ditaaPath ++
  utf8Bytes (pyStrList ditaaArgs)

/-- The output file name `'%s-%s.png' % (prefix, sha(hashkey).hexdigest())`. -/
def outfname (pfx code : String) (options : List String)
    (ditaaPath : String) (ditaaArgs : List String) : String :=
  pfx ++ "-" ++ sha1Hexdigest (hashkey code options ditaaPath ditaaArgs) ++
  ".png"

/-- Models `outrelfn = os.path.join(self.builder.imgpath, outfname)`. -/
def outrelfn (b : Builder) (code : String) (options : List String)
    (pfx : String) : String :=
  osPathJoin b.imgpath (outfname pfx code options b.config.ditaa
    b.config.ditaa_args)

/-- Models `outfullfn = os.path.join(self.builder.outdir, '_images', outfname)`. -/
def outfullfn (b : Builder) (code : String) (options : List String)
    (pfx : String) : String :=
  osPathJoin (osPathJoin b.outdir "_images")
    (outfname pfx code options b.config.ditaa b.config.ditaa_args)

/-- The warning text recorded when the ditaa command cannot be run. -/
def ditaaCmdWarning (cmd : List String) : String :=
  "ditaa command " ++ pyReprStr (String.intercalate " " cmd) ++
  " cannot be run: check the \"ditaa\" and \"ditaa_args\" settings"

/-- The `DitaaError` message raised on a nonzero exit code. -/
def ditaaErrMsg (stderrText stdoutText : String) : String :=
  "ditaa exited with error:\n[stderr]\n" ++ stderrText ++ "\n[stdout]\n" ++
  stdoutText

/-- The function `render_ditaa(self, code, options, prefix='ditaa')`, translated line by
line.  Returns the outcome, the updated builder state, and the event trace.
The temporary input file always exists in the source (`NamedTemporaryFile`
itself is not modelled as fallible), so paths after its creation record a
`createTemp` event, and the `try/finally` an `unlink` event. -/
def render_ditaa (b : Builder) (w : World) (code : String)
    (options : List String) (pfx : String) :
    ROutcome × Builder × List Event :=
  let orel := outrelfn b code options pfx
  let ofull := outfullfn b code options pfx
  if w.fileExists ofull then
    (ROutcome.ret (some orel) (some ofull), b, [])
  else if b.ditaa_warned then
    (ROutcome.ret none none, b, [])
  else
    let tmp := w.tmpName
    let ditaa_cmd := b.config.ditaa ::
      (b.config.ditaa_args ++ options ++ [tmp, ofull])
    let evs := [Event.ensuredirEv (dirname ofull), Event.createTemp tmp,
                Event.writeTemp tmp (utf8Bytes code), Event.launch ditaa_cmd]
    -- check the return code, with the streams captured so far, then return
    -- (the shared tail of the try block after `wentWrong` is resolved);
    -- the finally clause contributes the trailing unlink on every path
    let checkExit := fun (stdoutB stderrB : List Nat) =>
      if w.returncode ≠ 0 then
        (ROutcome.ditaaError
           (ditaaErrMsg (w.decode stderrB) (w.decode stdoutB)),
         { b with ditaa_warned := true }, evs ++ [Event.unlink tmp])
      else
        (ROutcome.ret (some orel) (some ofull), b,
         evs ++ [Event.unlink tmp])
    match w.popen with
    | PopenResult.osError e =>
        if e ≠ ENOENT then
          (ROutcome.osErrorRaised e, b, evs ++ [Event.unlink tmp])
        else
          (ROutcome.ret none none,
           { b with ditaa_warned := true,
                    warnings := b.warnings ++ [ditaaCmdWarning ditaa_cmd] },
           evs ++ [Event.unlink tmp])
    | PopenResult.ok =>
        match w.comm with
        | CommResult.osError e =>
            if e ≠ EPIPE then
              (ROutcome.osErrorRaised e, b, evs ++ [Event.unlink tmp])
            else
              checkExit w.directStdout w.directStderr
        | CommResult.ioError e =>
            if e ≠ EINVAL then
              (ROutcome.ioErrorRaised e, b, evs ++ [Event.unlink tmp])
            else
              checkExit w.directStdout w.directStderr
        | CommResult.ok stdoutB stderrB =>
            checkExit stdoutB stderrB

/-- The `ditaa` document node built by `Ditaa.run`: the attributes
`code`, `options`, optional `alt` and `caption`, and the `inline` flag
(`node['inline'] = 'inline' in self.options`). -/
structure DitaaNode where
  code : String
  options : List String
  alt : Option String
  caption : Option String
  inlineFlag : Bool
  deriving Repr, DecidableEq

/-- Modelled from the spec: the docutils `HTMLTranslator.starttag` helper
(an external collaborator, not part of this repository) emitting an opening
tag with the given class, e.g. `<p class="ditaa">` with a trailing
newline. -/
def starttag (wrapper cls : String) : String :=
  "<" ++ wrapper ++ " class=\"" ++ cls ++ "\">\n"

/-- Modelled from the spec: the docutils `HTMLTranslator.encode` helper
(an external collaborator) escaping literal text for HTML. -/
def htmlEncode (s : String) : String :=
  String.mk (s.data.foldr (fun c acc =>
    if c = Char.ofNat 38 then ("&amp;".data ++ acc)
    else if c = Char.ofNat 60 then ("&lt;".data ++ acc)
    else if c = Char.ofNat 62 then ("&gt;".data ++ acc)
    else if c = Char.ofNat 34 then ("&quot;".data ++ acc)
    else c :: acc) [])

/-- The image fragment `'<img src="%s"/>\n' % fname`. -/
def imgTag (fname : String) : String :=
  "<img src=\"" ++ fname ++ "\"/>\n"

/-- How `render_ditaa_html` terminates: `SkipNode` raised after appending
the listed body fragments; `SkipNode` raised after converting a caught
`DitaaError` into a system message and a builder warning; or a propagated
`OSError` / `IOError` from `render_ditaa`. -/
inductive HtmlResult where
  | skip (body : List String)
  | warnSkip (info : String)
  | raisedOs (errno : Nat)
  | raisedIo (errno : Nat)
  deriving Repr, DecidableEq

/-- The function `render_ditaa_html(self, node, code, options, prefix='ditaa', ...)`:
returns the result together with the updated builder state. -/
def render_ditaa_html (b : Builder) (w : World) (node : DitaaNode)
    (code : String) (options : List String) (pfx : String) :
    HtmlResult × Builder :=
  match render_ditaa b w code options pfx with
  | (ROutcome.ditaaError info, b2, _) =>
      (HtmlResult.warnSkip info,
       { b2 with warnings := b2.warnings ++ [info] })
  | (ROutcome.osErrorRaised e, b2, _) => (HtmlResult.raisedOs e, b2)
  | (ROutcome.ioErrorRaised e, b2, _) => (HtmlResult.raisedIo e, b2)
  | (ROutcome.ret fname _, b2, _) =>
      let wrapper := if node.inlineFlag then "span" else "p"
      let mid := match fname with
        | none => htmlEncode code
        | some f => imgTag f
      (HtmlResult.skip
         [starttag wrapper "ditaa", mid, "</" ++ wrapper ++ ">\n"], b2)

/-- The visitor `html_visit_ditaa(self, node)`: render with the node's own code and
options and the default prefix. -/
def html_visit_ditaa (b : Builder) (w : World) (node : DitaaNode) :
    HtmlResult × Builder :=
  render_ditaa_html b w node node.code node.options "ditaa"

/-- The recognized directive options: `alt` and `caption` (stored verbatim
when present) and the presence flag `inline`. -/
structure DirectiveOptions where
  alt : Option String
  caption : Option String
  hasInline : Bool
  deriving Repr, DecidableEq

/-- A node returned by `Ditaa.run`: either a reporter warning
(a `system_message` node) or a `ditaa` diagram node. -/
inductive RunNode where
  | reporterWarning (msg : String)
  | diagram (n : DitaaNode)
  deriving Repr, DecidableEq

/-- The collaborators `Ditaa.run` calls into: `env.relfn2path` and the
`codecs.open(filename, 'r', 'utf-8')` read, which either yields the file
text or raises `IOError` / `OSError`. -/
structure RunEnv where
  relfn2path : String → String × String
  readUtf8 : String → Except Unit String

/-- The warning text for an unreadable external file argument. -/
def externalFileWarning (filename : String) : String :=
  "External Ditaa file " ++ pyReprStr filename ++
  " not found or reading it failed"

/-- The directive method `Ditaa.run(self)`, translated line by line: `arguments` and `content`
are the directive argument list and content lines, and truthiness of both
is nonemptiness. -/
def Ditaa.run (env : RunEnv) (arguments content : List String)
    (opts : DirectiveOptions) : List RunNode :=
  match arguments with
  | arg :: _ =>
      if content ≠ [] then
        [RunNode.reporterWarning
          "Ditaa directive cannot have both content and a filename argument"]
      else
        let fn := (env.relfn2path arg).2
        match env.readUtf8 fn with
        | Except.error _ =>
            [RunNode.reporterWarning (externalFileWarning fn)]
        | Except.ok dotcode =>
            [RunNode.diagram
              { code := dotcode, options := [], alt := opts.alt,
                caption := opts.caption, inlineFlag := opts.hasInline }]
  | [] =>
      let dotcode := String.intercalate "\n" content
      if dotcode.trim = "" then
        [RunNode.reporterWarning
          "Ignoring \"ditaa\" directive without content."]
      else
        [RunNode.diagram
          { code := dotcode, options := [], alt := opts.alt,
            caption := opts.caption, inlineFlag := opts.hasInline }]

/-- Whether a returned node is a `ditaa` diagram node. -/
def RunNode.isDiagram : RunNode → Bool
  | RunNode.diagram _ => true
  | _ => false

/-- Whether a returned node is a reporter warning (`system_message`). -/
def RunNode.isWarning : RunNode → Bool
  | RunNode.reporterWarning _ => true
  | _ => false

/-! Concrete fixtures used by witnesses and counterexamples. -/

/-- The default configuration (`ditaa` tool, no extra arguments). -/
def exConfig : Config := { ditaa := "ditaa", ditaa_args := [] }

/-- A fresh builder: flag unset, no warnings yet. -/
def exBuilder : Builder :=
  { config := exConfig, imgpath := "_images", outdir := "/out",
    ditaa_warned := false, warnings := [] }

/-- A builder whose sticky `_ditaa_warned` flag is already set. -/
def exBuilderWarned : Builder := { exBuilder with ditaa_warned := true }

/-- A world where no output file exists and the tool runs and exits 0. -/
def exWorldBase : World :=
  { fileExists := fun _ => false, tmpName := "/tmp/t.ditaa",
    popen := PopenResult.ok, comm := CommResult.ok [] [],
    directStdout := [], directStderr := [], returncode := 0,
    decode := fun _ => "" }

/-- A world where the output file already exists (cache hit). -/
def exWorldCached : World := { exWorldBase with fileExists := fun _ => true }

/-- A world where the tool exits with code 1 after writing to both
streams; `decode` renders the error stream as the stub text. -/
def exWorldExit1 : World :=
  { exWorldBase with
      comm := CommResult.ok [111, 117, 116] [101, 114, 114],
      returncode := 1,
      decode := fun bs => String.mk (bs.map Char.ofNat) }

/-- A world where `communicate` raises `OSError` with errno `EINVAL`. -/
def exWorldOsEinval : World :=
  { exWorldBase with comm := CommResult.osError EINVAL }

/-- A world where `communicate` raises `OSError` with errno `EPIPE`
(the tool aborted early); the directly-read streams are nonempty. -/
def exWorldEpipe : World :=
  { exWorldBase with comm := CommResult.osError EPIPE,
                     directStdout := [111], directStderr := [101],
                     returncode := 1,
                     decode := fun bs => String.mk (bs.map Char.ofNat) }

/-- A world where `Popen` raises `OSError` with errno `ENOENT`. -/
def exWorldNoTool : World :=
  { exWorldBase with popen := PopenResult.osError ENOENT }

/-- A directive environment whose file read succeeds with fixed text. -/
def exRunEnv : RunEnv :=
  { relfn2path := fun s => (s, s), readUtf8 := fun _ => Except.ok "t" }

/-- Directive options: nothing supplied. -/
def exOpts : DirectiveOptions :=
  { alt := none, caption := none, hasInline := false }

/-- A block-mode diagram node as the directive builds it. -/
def exNode : DitaaNode :=
  { code := "a", options := [], alt := none, caption := none,
    inlineFlag := false }

/-! Theorems. -/

/-- Whenever `render_ditaa` returns a pair of paths, both file names are
the deterministic pure function of the four inputs: the caller-supplied
prefix, a dash, the hexadecimal SHA-1 digest of the UTF-8 concatenation of
diagram text, serialized options, tool path and serialized tool args (in
that order), then `.png`.  Helper shared by several claims. -/
theorem render_ditaa_ret_names (b : Builder) (w : World) (code : String)
    (options : List String) (pfx : String) (f o : String)
    (h : (render_ditaa b w code options pfx).1 =
      ROutcome.ret (some f) (some o)) :
    f = outrelfn b code options pfx ∧ o = outfullfn b code options pfx := by
  rcases w with ⟨fe, tmp, popen, comm, dout, derr, rc, dec⟩
  rcases popen with _ | e <;>
    rcases comm with ⟨so, se⟩ | e2 | e2 <;>
    simp only [render_ditaa] at h <;>
    split_ifs at h <;>
    simp_all

/-- C1: the cache key is a deterministic pure function of the four inputs:
whenever `render_ditaa` returns file paths, the output file name is
`<prefix>-<hex SHA-1 of utf8(code) ++ utf8(str(options)) ++ utf8(tool path)
++ utf8(str(tool args))>.png`, joined under the image directories; the name
depends on nothing else, so identical inputs always yield identical file
names. -/
theorem cache_key_deterministic (b : Builder) (w : World) (code : String)
    (options : List String) (pfx : String) (f o : String)
    (h : (render_ditaa b w code options pfx).1 =
      ROutcome.ret (some f) (some o)) :
    f = osPathJoin b.imgpath
        (pfx ++ "-" ++
         sha1Hexdigest (utf8Bytes code ++ utf8Bytes (pyStrList options) ++
           utf8Bytes b.config.ditaa ++
           utf8Bytes (pyStrList b.config.ditaa_args)) ++ ".png") ∧
    o = osPathJoin (osPathJoin b.outdir "_images")
        (pfx ++ "-" ++
         sha1Hexdigest (utf8Bytes code ++ utf8Bytes (pyStrList options) ++
           utf8Bytes b.config.ditaa ++
           utf8Bytes (pyStrList b.config.ditaa_args)) ++ ".png") :=
  render_ditaa_ret_names b w code options pfx f o h

/-- Witness for C1 at a concrete cached input. -/
theorem cache_key_deterministic_witness :
    outrelfn exBuilder "a" [] "d" = osPathJoin exBuilder.imgpath
        ("d" ++ "-" ++
         sha1Hexdigest (utf8Bytes "a" ++ utf8Bytes (pyStrList []) ++
           utf8Bytes exBuilder.config.ditaa ++
           utf8Bytes (pyStrList exBuilder.config.ditaa_args)) ++ ".png") ∧
    outfullfn exBuilder "a" [] "d" =
      osPathJoin (osPathJoin exBuilder.outdir "_images")
        ("d" ++ "-" ++
         sha1Hexdigest (utf8Bytes "a" ++ utf8Bytes (pyStrList []) ++
           utf8Bytes exBuilder.config.ditaa ++
           utf8Bytes (pyStrList exBuilder.config.ditaa_args)) ++ ".png") :=
  cache_key_deterministic exBuilder exWorldCached "a" [] "d"
    (outrelfn exBuilder "a" [] "d") (outfullfn exBuilder "a" [] "d") rfl

/-- C2: on a cache hit (the output file exists) `render_ditaa` returns the
(public-relative, absolute) pair immediately, the builder state — sticky
flag and warnings included — is unchanged, and the event trace is empty
(no directory creation, no temp file, no subprocess). -/
theorem cache_hit_no_subprocess (b : Builder) (w : World) (code : String)
    (options : List String) (pfx : String)
    (h : w.fileExists (outfullfn b code options pfx) = true) :
    render_ditaa b w code options pfx =
      (ROutcome.ret (some (outrelfn b code options pfx))
         (some (outfullfn b code options pfx)), b, []) := by
  simp [render_ditaa, h]

/-- Witness for C2 at a concrete cached input. -/
theorem cache_hit_no_subprocess_witness :
    render_ditaa exBuilder exWorldCached "a" [] "d" =
      (ROutcome.ret (some (outrelfn exBuilder "a" [] "d"))
         (some (outfullfn exBuilder "a" [] "d")), exBuilder, []) :=
  cache_hit_no_subprocess exBuilder exWorldCached "a" [] "d" rfl

/-- Counterexample to C3 as stated: with the sticky flag already set but
the output file cached on disk (e.g. from a previous run), a further
render attempt does not return "no output" — it returns the cached paths. -/
theorem sticky_flag_counterexample :
    exBuilderWarned.ditaa_warned = true ∧
    (render_ditaa exBuilderWarned exWorldCached "a" [] "d").1 ≠
      ROutcome.ret none none := by
  refine ⟨rfl, ?_⟩
  intro h
  simp [render_ditaa, exWorldCached, exWorldBase] at h

/-- C3 (amended): a `Popen` failure with errno `ENOENT` records a warning,
sets the sticky flag and returns "no output"; once the flag is set, every
further render attempt whose output file is not already cached returns
"no output" with an empty event trace (no subprocess launched); a `Popen`
failure with any other errno propagates as an uncaught `OSError`. -/
theorem tool_missing_sticky_flag (b : Builder) (w : World) (code : String)
    (options : List String) (pfx : String) :
    (w.fileExists (outfullfn b code options pfx) = false →
      b.ditaa_warned = false → w.popen = PopenResult.osError ENOENT →
      render_ditaa b w code options pfx =
        (ROutcome.ret none none,
         { b with ditaa_warned := true,
                  warnings := b.warnings ++
                    [ditaaCmdWarning (b.config.ditaa ::
                      (b.config.ditaa_args ++ options ++
                       [w.tmpName, outfullfn b code options pfx]))] },
         [Event.ensuredirEv (dirname (outfullfn b code options pfx)),
          Event.createTemp w.tmpName,
          Event.writeTemp w.tmpName (utf8Bytes code),
          Event.launch (b.config.ditaa :: (b.config.ditaa_args ++ options ++
            [w.tmpName, outfullfn b code options pfx])),
          Event.unlink w.tmpName])) ∧
    (b.ditaa_warned = true →
      w.fileExists (outfullfn b code options pfx) = false →
      render_ditaa b w code options pfx =
        (ROutcome.ret none none, b, [])) ∧
    (∀ e : Nat, e ≠ ENOENT →
      w.fileExists (outfullfn b code options pfx) = false →
      b.ditaa_warned = false → w.popen = PopenResult.osError e →
      (render_ditaa b w code options pfx).1 = ROutcome.osErrorRaised e) := by
  refine ⟨?_, ?_, ?_⟩
  · intro hfe hwarn hp
    simp [render_ditaa, hfe, hwarn, hp, ENOENT]
  · intro hwarn hfe
    simp [render_ditaa, hfe, hwarn]
  · intro e he hfe hwarn hp
    simp [render_ditaa, hfe, hwarn, hp, he]

/-- Witness for C3 (amended) at a concrete missing-tool input. -/
theorem tool_missing_sticky_flag_witness :
    render_ditaa exBuilder exWorldNoTool "a" [] "d" =
      (ROutcome.ret none none,
       { exBuilder with ditaa_warned := true,
                        warnings := exBuilder.warnings ++
                          [ditaaCmdWarning (exBuilder.config.ditaa ::
                            (exBuilder.config.ditaa_args ++ [] ++
                             [exWorldNoTool.tmpName,
                              outfullfn exBuilder "a" [] "d"]))] },
       [Event.ensuredirEv (dirname (outfullfn exBuilder "a" [] "d")),
        Event.createTemp exWorldNoTool.tmpName,
        Event.writeTemp exWorldNoTool.tmpName (utf8Bytes "a"),
        Event.launch (exBuilder.config.ditaa ::
          (exBuilder.config.ditaa_args ++ [] ++
           [exWorldNoTool.tmpName, outfullfn exBuilder "a" [] "d"])),
        Event.unlink exWorldNoTool.tmpName]) :=
  (tool_missing_sticky_flag exBuilder exWorldNoTool "a" [] "d").1
    rfl rfl rfl

/-- C4: a nonzero exit code sets the sticky flag and raises `DitaaError`
whose message holds both captured streams decoded with the host encoding;
in particular the decoded standard-error text appears verbatim inside the
message (between explicit surrounding strings). -/
theorem nonzero_exit_raises (b : Builder) (w : World) (code : String)
    (options : List String) (pfx : String) (so se : List Nat)
    (hfe : w.fileExists (outfullfn b code options pfx) = false)
    (hwarn : b.ditaa_warned = false)
    (hp : w.popen = PopenResult.ok)
    (hc : w.comm = CommResult.ok so se)
    (hrc : w.returncode ≠ 0) :
    (render_ditaa b w code options pfx).1 =
      ROutcome.ditaaError (ditaaErrMsg (w.decode se) (w.decode so)) ∧
    (render_ditaa b w code options pfx).2.1 =
      { b with ditaa_warned := true } ∧
    ∃ pre mid : String, ditaaErrMsg (w.decode se) (w.decode so) =
      pre ++ w.decode se ++ mid ++ w.decode so := by
  refine ⟨?_, ?_,
    "ditaa exited with error:\n[stderr]\n", "\n[stdout]\n", rfl⟩
  · simp [render_ditaa, hfe, hwarn, hp, hc, hrc]
  · simp [render_ditaa, hfe, hwarn, hp, hc, hrc]

/-- Witness for C4: a stub tool exiting 1 with `err` on its error stream
yields a `DitaaError` whose message holds the stub text verbatim. -/
theorem nonzero_exit_raises_witness :
    (render_ditaa exBuilder exWorldExit1 "a" [] "d").1 =
      ROutcome.ditaaError
        (ditaaErrMsg (exWorldExit1.decode [101, 114, 114])
          (exWorldExit1.decode [111, 117, 116])) ∧
    (render_ditaa exBuilder exWorldExit1 "a" [] "d").2.1 =
      { exBuilder with ditaa_warned := true } ∧
    ∃ pre mid : String,
      ditaaErrMsg (exWorldExit1.decode [101, 114, 114])
          (exWorldExit1.decode [111, 117, 116]) =
        pre ++ exWorldExit1.decode [101, 114, 114] ++ mid ++
        exWorldExit1.decode [111, 117, 116] :=
  nonzero_exit_raises exBuilder exWorldExit1 "a" [] "d"
    [111, 117, 116] [101, 114, 114] rfl rfl rfl rfl (by decide)

/-- Counterexample to C5 as stated: an `OSError` during `communicate`
carrying errno `EINVAL` (an "invalid-operation condition") is propagated
uncaught, because the `OSError` clause recovers only `EPIPE`. -/
theorem comm_einval_counterexample :
    exWorldOsEinval.comm = CommResult.osError EINVAL ∧
    (render_ditaa exBuilder exWorldOsEinval "a" [] "d").1 =
      ROutcome.osErrorRaised EINVAL := by
  constructor
  · rfl
  · simp [render_ditaa, exWorldOsEinval, exWorldBase, exBuilder, exConfig,
      EINVAL, EPIPE]

/-- C5 (amended): an `OSError` with errno `EPIPE`, or an `IOError` with
errno `EINVAL`, during `communicate` is not propagated: the call behaves
exactly as if `communicate` had returned the directly-read output and
error streams, waiting for the subprocess and proceeding to the exit-code
check; an `OSError` with any errno other than `EPIPE` and an `IOError`
with any errno other than `EINVAL` propagate uncaught. -/
theorem comm_failure_handling (b : Builder) (w : World) (code : String)
    (options : List String) (pfx : String) :
    (w.comm = CommResult.osError EPIPE →
      render_ditaa b w code options pfx =
        render_ditaa b
          { w with comm := CommResult.ok w.directStdout w.directStderr }
          code options pfx) ∧
    (w.comm = CommResult.ioError EINVAL →
      render_ditaa b w code options pfx =
        render_ditaa b
          { w with comm := CommResult.ok w.directStdout w.directStderr }
          code options pfx) ∧
    (∀ e : Nat, e ≠ EPIPE →
      w.fileExists (outfullfn b code options pfx) = false →
      b.ditaa_warned = false → w.popen = PopenResult.ok →
      w.comm = CommResult.osError e →
      (render_ditaa b w code options pfx).1 = ROutcome.osErrorRaised e) ∧
    (∀ e : Nat, e ≠ EINVAL →
      w.fileExists (outfullfn b code options pfx) = false →
      b.ditaa_warned = false → w.popen = PopenResult.ok →
      w.comm = CommResult.ioError e →
      (render_ditaa b w code options pfx).1 = ROutcome.ioErrorRaised e) := by
  refine ⟨?_, ?_, ?_, ?_⟩
  · intro hc
    rcases w with ⟨fe, tmp, popen, comm, dout, derr, rc, dec⟩
    cases hc
    rcases popen with _ | e <;> simp [render_ditaa, EPIPE]
  · intro hc
    rcases w with ⟨fe, tmp, popen, comm, dout, derr, rc, dec⟩
    cases hc
    rcases popen with _ | e <;> simp [render_ditaa, EINVAL]
  · intro e he hfe hwarn hp hc
    simp [render_ditaa, hfe, hwarn, hp, hc, he]
  · intro e he hfe hwarn hp hc
    simp [render_ditaa, hfe, hwarn, hp, hc, he]

/-- Witness for C5 (amended) at a concrete broken-pipe input. -/
theorem comm_failure_handling_witness :
    render_ditaa exBuilder exWorldEpipe "a" [] "d" =
      render_ditaa exBuilder
        { exWorldEpipe with
            comm := CommResult.ok exWorldEpipe.directStdout
              exWorldEpipe.directStderr } "a" [] "d" :=
  (comm_failure_handling exBuilder exWorldEpipe "a" [] "d").1 rfl

/-- C6: every exit path of `render_ditaa` that creates the temporary input
file — normal success, nonzero-exit raise, broken-pipe recovery, or
tool-not-found return — also deletes it: whenever the event trace records
`createTemp`, it also records `unlink` of the same name. -/
theorem temp_file_always_deleted (b : Builder) (w : World) (code : String)
    (options : List String) (pfx : String)
    (h : Event.createTemp w.tmpName ∈
      (render_ditaa b w code options pfx).2.2) :
    Event.unlink w.tmpName ∈ (render_ditaa b w code options pfx).2.2 := by
  rcases w with ⟨fe, tmp, popen, comm, dout, derr, rc, dec⟩
  rcases popen with _ | e <;>
    rcases comm with ⟨so, se⟩ | e2 | e2 <;>
    simp only [render_ditaa] at h ⊢ <;>
    split_ifs at h ⊢ <;>
    simp_all

/-- Witness for C6 on the nonzero-exit path. -/
theorem temp_file_always_deleted_witness :
    Event.unlink exWorldExit1.tmpName ∈
      (render_ditaa exBuilder exWorldExit1 "a" [] "d").2.2 :=
  temp_file_always_deleted exBuilder exWorldExit1 "a" [] "d" (by
    simp [render_ditaa, exWorldExit1, exWorldBase, exBuilder, exConfig])

/-- C7: when `render_ditaa` returns (no `DitaaError`), the HTML embedding
appends a `span` wrapper with class `ditaa` when the node's inline flag is
set and a `p` wrapper otherwise, holding the image tag for the
public-relative path on success and the escaped raw diagram text when the
render produced no output. -/
theorem html_wrapper_and_content (b : Builder) (w : World)
    (node : DitaaNode) (pfx : String) (f fo : Option String)
    (h : (render_ditaa b w node.code node.options pfx).1 =
      ROutcome.ret f fo) :
    (render_ditaa_html b w node node.code node.options pfx).1 =
      HtmlResult.skip
        [starttag (if node.inlineFlag then "span" else "p") "ditaa",
         f.elim (htmlEncode node.code) imgTag,
         "</" ++ (if node.inlineFlag then "span" else "p") ++ ">\n"] := by
  unfold render_ditaa_html
  rw [show render_ditaa b w node.code node.options pfx =
        (ROutcome.ret f fo,
         (render_ditaa b w node.code node.options pfx).2.1,
         (render_ditaa b w node.code node.options pfx).2.2) by rw [← h]]
  cases f <;> rfl

/-- Witness for C7 at a concrete cached input with a block node. -/
theorem html_wrapper_and_content_witness :
    (render_ditaa_html exBuilder exWorldCached exNode exNode.code
        exNode.options "d").1 =
      HtmlResult.skip
        [starttag "p" "ditaa",
         (some (outrelfn exBuilder "a" [] "d")).elim
           (htmlEncode exNode.code) imgTag,
         "</" ++ "p" ++ ">\n"] :=
  html_wrapper_and_content exBuilder exWorldCached exNode "d"
    (some (outrelfn exBuilder "a" [] "d"))
    (some (outfullfn exBuilder "a" [] "d")) rfl

/-- C8: a directive invocation with both inline content and a filename
argument produces zero diagram nodes and exactly one warning. -/
theorem both_content_and_filename (env : RunEnv)
    (arguments content : List String) (opts : DirectiveOptions)
    (ha : arguments ≠ []) (hc : content ≠ []) :
    (Ditaa.run env arguments content opts).countP RunNode.isDiagram = 0 ∧
    (Ditaa.run env arguments content opts).countP RunNode.isWarning = 1 := by
  rcases arguments with _ | ⟨a, as⟩
  · exact absurd rfl ha
  · simp [Ditaa.run, hc, RunNode.isDiagram, RunNode.isWarning]

/-- Witness for C8 at a concrete both-inputs invocation. -/
theorem both_content_and_filename_witness :
    (Ditaa.run exRunEnv ["f"] ["x"] exOpts).countP RunNode.isDiagram = 0 ∧
    (Ditaa.run exRunEnv ["f"] ["x"] exOpts).countP RunNode.isWarning = 1 :=
  both_content_and_filename exRunEnv ["f"] ["x"] exOpts
    (by decide) (by decide)

/-- C9: every diagram node `Ditaa.run` produces carries an empty options
list — the directive surface never populates per-call options. -/
theorem diagram_nodes_options_empty (env : RunEnv)
    (arguments content : List String) (opts : DirectiveOptions)
    (n : DitaaNode)
    (h : RunNode.diagram n ∈ Ditaa.run env arguments content opts) :
    n.options = [] := by
  rcases arguments with _ | ⟨a, as⟩
  · simp only [Ditaa.run] at h
    split_ifs at h <;> simp_all
  · simp only [Ditaa.run] at h
    split_ifs at h
    · simp_all
    · rcases hr : env.readUtf8 (env.relfn2path a).2 with e | s <;>
        rw [hr] at h <;> simp_all

/-- Witness for C9: the node produced from a concrete file argument. -/
theorem diagram_nodes_options_empty_witness :
    (DitaaNode.mk "t" [] none none false).options = [] :=
  diagram_nodes_options_empty exRunEnv ["f"] [] exOpts
    (DitaaNode.mk "t" [] none none false) (by decide)

/-- The HTML rendering reads only the node's inline flag (besides the code
and options passed separately); helper for the alt-independence claim. -/
theorem render_ditaa_html_reads_only_inline (b : Builder) (w : World)
    (n1 n2 : DitaaNode) (code : String) (options : List String)
    (pfx : String) (h : n1.inlineFlag = n2.inlineFlag) :
    render_ditaa_html b w n1 code options pfx =
      render_ditaa_html b w n2 code options pfx := by
  unfold render_ditaa_html
  rcases hr : render_ditaa b w code options pfx with ⟨r, b2, evs⟩
  cases r <;> simp [h]

/-- C10: the generated HTML is independent of the node's `alt` option —
two nodes differing only in `alt` yield identical markup — and the image
fragment holds a `src` attribute only, no alternate text. -/
theorem html_alt_independent (b : Builder) (w : World) (node : DitaaNode)
    (a1 a2 : Option String) :
    html_visit_ditaa b w { node with alt := a1 } =
      html_visit_ditaa b w { node with alt := a2 } ∧
    ∀ f : String, imgTag f = "<img src=\"" ++ f ++ "\"/>\n" := by
  constructor
  · exact render_ditaa_html_reads_only_inline b w _ _ _ _ _ rfl
  · intro f
    rfl

/-- Witness for C10 at concrete differing alt values. -/
theorem html_alt_independent_witness :
    html_visit_ditaa exBuilder exWorldCached { exNode with alt := some "x" } =
      html_visit_ditaa exBuilder exWorldCached { exNode with alt := none } :=
  (html_alt_independent exBuilder exWorldCached exNode (some "x") none).1
